import Mathlib

/-!
Verification of the BiomechAI session-analysis pipeline.

A shallow embedding of the analysis code in `src/convex/chat.ts`,
`src/convex/gait.ts` and `src/convex/reports.ts`.  JavaScript numbers are
modelled as rationals (`ℚ`); `Math.round` as round-half-up on `ℚ`;
JavaScript truthiness of a number (`x && ...`) as `x ≠ 0`; a JavaScript
arithmetic result that is `NaN`/`Infinity` or an absent object field is
modelled as `none` in an `Option`.
-/

namespace BiomechAI

/-- Posture classification labels used by `analyzePosture` in `src/convex/chat.ts`. -/
inductive PostureClass
  | good
  | fair
  | poor
deriving DecidableEq

/-- Gait classification labels used by `analyzeGait` in `src/convex/gait.ts`. -/
inductive GaitClass
  | normal
  | irregular
  | asymmetric
deriving DecidableEq

/-- JavaScript truthiness of a number: `0` (and `NaN`, not representable here)
is falsy, every other number is truthy. -/
abbrev jsTruthy (q : ℚ) : Prop := q ≠ 0

/-- `Math.round`: round half toward positive infinity. -/
def jsRound (x : ℚ) : ℤ := ⌊x + 1 / 2⌋

/-- Severity rank of a posture label: `good` < `fair` < `poor`. -/
def severity : PostureClass → ℕ
  | .good => 0
  | .fair => 1
  | .poor => 2

/-- Arguments of the `analyzePosture` mutation (`src/convex/chat.ts`). -/
structure PostureArgs where
  forwardHeadAngle : ℚ
  shoulderTilt : ℚ
  neckAngle : ℚ
  spineAlignment : ℚ
  duration : ℚ
  sittingPosition : Option String
  handFolding : Bool
  kneeling : Bool
  spineAngle : Option ℚ
  earToHipAngle : Option ℚ
  postureScore : Option ℚ
  keypointConfidence : Option ℚ

/-- The common shape of one classification rule in `analyzePosture`:
`if P then poor else if Q then (good ↦ fair, else unchanged) else unchanged`.
Rules without one of the two branches pass `False` for it. -/
def thresholdRule (p q : Prop) [Decidable p] [Decidable q] (c : PostureClass) : PostureClass :=
  if p then .poor
  else if q then (if c = .good then .fair else c)
  else c

/-- Sitting-position rule of `analyzePosture`: `hunchback` sets `poor`,
`reclined` sets `fair` when the label is still `good`. -/
def sittingRule (a : PostureArgs) : PostureClass → PostureClass :=
  thresholdRule (a.sittingPosition = some "hunchback") (a.sittingPosition = some "reclined")

/-- Forward-head rule of `analyzePosture`: `> 15` sets `poor`, else `> 10`
sets `fair` when the label is still `good`. -/
def forwardHeadRule (a : PostureArgs) : PostureClass → PostureClass :=
  thresholdRule (a.forwardHeadAngle > 15) (a.forwardHeadAngle > 10)

/-- Shoulder-tilt rule of `analyzePosture`: `|tilt| > 10` sets `poor`. -/
def shoulderRule (a : PostureArgs) : PostureClass → PostureClass :=
  thresholdRule (|a.shoulderTilt| > 10) False

/-- Neck-angle rule of `analyzePosture`: `> 15` sets `fair` when the label
is still `good`. -/
def neckRule (a : PostureArgs) : PostureClass → PostureClass :=
  thresholdRule False (a.neckAngle > 15)

/-- Spine-alignment rule of `analyzePosture`: `< 70` sets `poor`, else `< 85`
sets `fair` when the label is still `good`. -/
def spineRule (a : PostureArgs) : PostureClass → PostureClass :=
  thresholdRule (a.spineAlignment < 70) (a.spineAlignment < 85)

/-- Posture-score rule of `analyzePosture`.  The source guards with
`args.postureScore && args.postureScore < 60`, so a missing score skips the
rule and a score of `0` is falsy and also skips it. -/
def postureScoreRule (a : PostureArgs) (c : PostureClass) : PostureClass :=
  match a.postureScore with
  | some ps => thresholdRule (jsTruthy ps ∧ ps < 60) (jsTruthy ps ∧ ps < 80) c
  | none => c

/-- The ordered cascade of classification rules of `analyzePosture`, in source
order.  The hand-folding, kneeling and keypoint-confidence blocks only append
recommendations and never touch the classification, so they contribute no
rule here. -/
def postureRules (a : PostureArgs) : List (PostureClass → PostureClass) :=
  [sittingRule a, forwardHeadRule a, shoulderRule a, neckRule a, spineRule a,
    postureScoreRule a]

/-- The classification computed by `analyzePosture`: the rule cascade applied
in order, starting from `good`. -/
def analyzePostureClassification (a : PostureArgs) : PostureClass :=
  (postureRules a).foldl (fun c r => r c) .good

/-- The classification of `analyzePosture` just before the posture-score rule
(the last rule of the cascade). -/
def preScoreClassification (a : PostureArgs) : PostureClass :=
  [sittingRule a, forwardHeadRule a, shoulderRule a, neckRule a,
    spineRule a].foldl (fun c r => r c) .good

/-- Arguments of the `analyzeGait` mutation (`src/convex/gait.ts`). -/
structure GaitArgs where
  stepCount : ℚ
  symmetryScore : ℚ
  cadence : ℚ
  strideLength : Option ℚ
  gaitSpeed : Option ℚ
  leftRightBalance : ℚ
  analysisType : String
  stancePhase : Option ℚ
  swingPhase : Option ℚ
  doubleSupportPhase : Option ℚ
  heelStrikeForce : Option ℚ
  toeOffForce : Option ℚ

/-- The value returned by `analyzeGait` (without the inserted session id). -/
structure GaitResult where
  classification : GaitClass
  recommendations : List String
  score : ℚ
deriving DecidableEq

/-- The `analyzeGait` mutation handler of `src/convex/gait.ts`: sequential
classification and recommendation building.  Optional fields guarded in the
source by JavaScript truthiness (`args.x && ...`) skip their rule when the
field is absent or `0`. -/
def analyzeGait (a : GaitArgs) : GaitResult :=
  let sym :=
    if a.symmetryScore < 70 then
      (GaitClass.asymmetric,
        ["Significant gait asymmetry detected - consider consulting a healthcare professional"])
    else if a.symmetryScore < 85 then
      (GaitClass.irregular,
        ["Minor gait irregularities detected - focus on balanced movement"])
    else (GaitClass.normal, ([] : List String))
  let bal :=
    if |a.leftRightBalance - 50| > 15 then
      ((if sym.1 = GaitClass.normal then GaitClass.irregular else sym.1),
        sym.2 ++ ["Uneven weight distribution between left and right steps"])
    else sym
  let r3 :=
    if a.cadence < 100 ∨ a.cadence > 180 then
      bal.2 ++ ["Cadence outside normal range - aim for 120-160 steps per minute"]
    else bal.2
  let r4 :=
    if a.analysisType = "esp32" then
      let rs :=
        match a.stancePhase with
        | some sp =>
          if jsTruthy sp ∧ (sp < 55 ∨ sp > 70) then
            r3 ++ ["Abnormal stance phase duration - may indicate balance issues"]
          else r3
        | none => r3
      let rw :=
        match a.swingPhase with
        | some sw =>
          if jsTruthy sw ∧ (sw < 25 ∨ sw > 40) then
            rs ++ ["Abnormal swing phase duration - may indicate mobility limitations"]
          else rs
        | none => rs
      let rf :=
        match a.heelStrikeForce, a.toeOffForce with
        | some h, some t =>
          if jsTruthy h ∧ jsTruthy t then
            (if h / t < 4 / 5 ∨ h / t > 6 / 5 then
              rw ++ ["Uneven ground reaction forces - consider gait training"]
            else rw)
          else rw
        | _, _ => rw
      match a.gaitSpeed with
      | some g =>
        if jsTruthy g ∧ g < 4 / 5 then
          rf ++ ["Slow gait speed - consider increasing walking pace gradually"]
        else rf
      | none => rf
    else r3
  let recs := if r4 = [] then ["Normal gait pattern detected!"] else r4
  { classification := bal.1, recommendations := recs, score := a.symmetryScore }

/-- A stored posture session record (the `postureSessions` table of
`src/convex/schema.ts`, restricted to the fields the queries read). -/
structure PostureRecord where
  timestamp : ℚ
  forwardHeadAngle : ℚ
  shoulderTilt : ℚ
  neckAngle : ℚ
  spineAlignment : ℚ
  classification : PostureClass
  duration : ℚ
  sittingPosition : Option String
  handFolding : Bool
  kneeling : Bool
  postureScore : Option ℚ
  keypointConfidence : Option ℚ

/-- A stored gait session record (the `gaitSessions` table of
`src/convex/schema.ts`, restricted to the fields the queries read). -/
structure GaitRecord where
  timestamp : ℚ
  stepCount : ℚ
  symmetryScore : ℚ
  cadence : ℚ
  strideLength : Option ℚ
  gaitSpeed : Option ℚ
  leftRightBalance : ℚ
  classification : GaitClass
  analysisType : String

/-- One entry of the posture weekly trend; the `date` field carries the
day-start timestamp that the source formats into a locale date string. -/
structure TrendEntry where
  date : ℚ
  score : ℤ
deriving DecidableEq

/-- One entry of the gait weekly trend. -/
structure GaitTrendEntry where
  date : ℚ
  symmetry : ℤ
deriving DecidableEq

/-- The `advancedStats` object of `getPostureStats`. -/
structure AdvancedPostureStats where
  sittingPositionStats : List (String × ℕ)
  handFoldingPercentage : ℤ
  kneelingPercentage : ℤ
  averagePostureScore : ℤ
  averageKeypointConfidence : ℤ
deriving DecidableEq

/-- The object returned by `getPostureStats`.  `averageForwardHead` and
`improvementRate` are `none` when the source leaves the field undefined
(empty-session branch) or produces a non-finite number (unguarded division
by zero). -/
structure PostureStats where
  totalSessions : ℕ
  averageScore : ℤ
  goodPosturePercentage : ℤ
  averageForwardHead : Option ℚ
  improvementRate : Option ℤ
  weeklyTrend : List TrendEntry
  advancedStats : AdvancedPostureStats
deriving DecidableEq

/-- The object returned by `getGaitStats`. -/
structure GaitStats where
  totalSessions : ℕ
  averageSymmetry : ℤ
  averageCadence : ℤ
  normalGaitPercentage : ℤ
  weeklyTrend : List GaitTrendEntry
deriving DecidableEq

/-- Milliseconds in a day: the `24 * 60 * 60 * 1000` of the trend loops. -/
def msPerDay : ℚ := 24 * 60 * 60 * 1000

/-- Membership test of the day window `i` days before now:
`dayStart <= t < dayStart + msPerDay` with `dayStart = now - i * msPerDay`. -/
def inDayBucket (now : ℚ) (i : ℕ) (t : ℚ) : Bool :=
  decide (now - (i : ℚ) * msPerDay ≤ t) && decide (t < now - (i : ℚ) * msPerDay + msPerDay)

/-- Number of records classified `good`. -/
def goodCount (l : List PostureRecord) : ℕ :=
  (l.filter fun s => decide (s.classification = PostureClass.good)).length

/-- The sessions of `getPostureStats` falling in the day window `i` days
before now: the `recentSessions` filter (timestamp within the trailing week)
followed by the per-day window filter of the trend loop. -/
def postureDaySessions (now : ℚ) (sessions : List PostureRecord) (i : ℕ) :
    List PostureRecord :=
  (sessions.filter fun s => decide (now - 7 * msPerDay < s.timestamp)).filter
    fun s => inDayBucket now i s.timestamp

/-- Good-classification percentage of a record list:
`count(classification = good) / count * 100`. -/
def goodPercentage (l : List PostureRecord) : ℚ :=
  ((goodCount l : ℚ) / l.length) * 100

/-- The per-day score of the posture trend: good-classification percentage of
the day's sessions, `0` if the day has none. -/
def postureDayScore (ds : List PostureRecord) : ℚ :=
  if 0 < ds.length then goodPercentage ds else 0

/-- The day offsets of the weekly-trend loops, in loop order
(`for i = 6; i >= 0; i--`). -/
def trailingDays : List ℕ := [6, 5, 4, 3, 2, 1, 0]

/-- The `weeklyTrend` loop of `getPostureStats`: `i` runs from 6 down to 0,
one entry per trailing day. -/
def postureWeeklyTrendOf (now : ℚ) (sessions : List PostureRecord) : List TrendEntry :=
  trailingDays.map fun (i : ℕ) =>
    { date := now - (i : ℚ) * msPerDay,
      score := jsRound (postureDayScore (postureDaySessions now sessions i)) }

/-- The improvement-rate block of `getPostureStats`: split at `floor(n / 2)`,
compare the two halves' good percentages.  When the first half's percentage
is `0` the source divides by zero, producing `NaN`/`Infinity`; that is
modelled as `none`. -/
def improvementRateOf (sessions : List PostureRecord) : Option ℤ :=
  let midPoint := sessions.length / 2
  let firstHalf := sessions.take midPoint
  let secondHalf := sessions.drop midPoint
  let firstHalfScore : ℚ :=
    if 0 < firstHalf.length then goodPercentage firstHalf else 0
  let secondHalfScore : ℚ :=
    if 0 < secondHalf.length then goodPercentage secondHalf else 0
  if 0 < firstHalf.length ∧ 0 < secondHalf.length then
    if firstHalfScore = 0 then none
    else some (jsRound ((secondHalfScore - firstHalfScore) / firstHalfScore * 100))
  else some 0

/-- Increment the tally of key `k` in an association list (the
`sittingPositionStats` record built by `getPostureStats`). -/
def bumpTally (m : List (String × ℕ)) (k : String) : List (String × ℕ) :=
  match m with
  | [] => [(k, 1)]
  | (k0, n) :: rest => if k0 = k then (k0, n + 1) :: rest else (k0, n) :: bumpTally rest k

/-- The `sittingPositionStats` tally of `getPostureStats`. -/
def sittingTally (sessions : List PostureRecord) : List (String × ℕ) :=
  sessions.foldl
    (fun m s => match s.sittingPosition with | some p => bumpTally m p | none => m) []

/-- The `getPostureStats` query handler of `src/convex/chat.ts`, as a function
of the current time and the stored posture sessions in chronological order. -/
def getPostureStats (now : ℚ) (sessions : List PostureRecord) : PostureStats :=
  if sessions.length = 0 then
    { totalSessions := 0, averageScore := 0, goodPosturePercentage := 0,
      averageForwardHead := none, improvementRate := none, weeklyTrend := [],
      advancedStats :=
        { sittingPositionStats := [], handFoldingPercentage := 0, kneelingPercentage := 0,
          averagePostureScore := 0, averageKeypointConfidence := 0 } }
  else
    let goodSessions := goodCount sessions
    let averageForwardHead := (sessions.map fun s => s.forwardHeadAngle).sum / sessions.length
    let handFoldingSessions := (sessions.filter fun s => s.handFolding).length
    let kneelingSessions := (sessions.filter fun s => s.kneeling).length
    let withScore := sessions.filter fun s => s.postureScore.isSome
    let averagePostureScore : ℚ :=
      if 0 < withScore.length then
        (withScore.map fun s => s.postureScore.getD 0).sum / withScore.length
      else 0
    let withConfidence := sessions.filter fun s => s.keypointConfidence.isSome
    let averageKeypointConfidence : ℚ :=
      if 0 < withConfidence.length then
        (withConfidence.map fun s => s.keypointConfidence.getD 0).sum / withConfidence.length
      else 0
    { totalSessions := sessions.length,
      averageScore := jsRound ((goodSessions : ℚ) / sessions.length * 100),
      goodPosturePercentage := jsRound ((goodSessions : ℚ) / sessions.length * 100),
      averageForwardHead := some ((jsRound (averageForwardHead * 10) : ℚ) / 10),
      improvementRate := improvementRateOf sessions,
      weeklyTrend := postureWeeklyTrendOf now sessions,
      advancedStats :=
        { sittingPositionStats := sittingTally sessions,
          handFoldingPercentage := jsRound ((handFoldingSessions : ℚ) / sessions.length * 100),
          kneelingPercentage := jsRound ((kneelingSessions : ℚ) / sessions.length * 100),
          averagePostureScore := jsRound averagePostureScore,
          averageKeypointConfidence := jsRound averageKeypointConfidence } }

/-- The sessions of `getGaitStats` falling in the day window `i` days before
now (trailing-week filter then the per-day window filter). -/
def gaitDaySessions (now : ℚ) (sessions : List GaitRecord) (i : ℕ) : List GaitRecord :=
  (sessions.filter fun s => decide (now - 7 * msPerDay < s.timestamp)).filter
    fun s => inDayBucket now i s.timestamp

/-- The per-day value of the gait trend: the mean `symmetryScore` of the
day's sessions, `0` if the day has none. -/
def gaitDaySymmetry (ds : List GaitRecord) : ℚ :=
  if 0 < ds.length then (ds.map fun s => s.symmetryScore).sum / ds.length else 0

/-- The `weeklyTrend` loop of `getGaitStats`. -/
def gaitWeeklyTrendOf (now : ℚ) (sessions : List GaitRecord) : List GaitTrendEntry :=
  trailingDays.map fun (i : ℕ) =>
    { date := now - (i : ℚ) * msPerDay,
      symmetry := jsRound (gaitDaySymmetry (gaitDaySessions now sessions i)) }

/-- The `getGaitStats` query handler of `src/convex/gait.ts`. -/
def getGaitStats (now : ℚ) (sessions : List GaitRecord) : GaitStats :=
  if sessions.length = 0 then
    { totalSessions := 0, averageSymmetry := 0, averageCadence := 0,
      normalGaitPercentage := 0, weeklyTrend := [] }
  else
    let normalSessions :=
      (sessions.filter fun s => decide (s.classification = GaitClass.normal)).length
    let averageSymmetry := (sessions.map fun s => s.symmetryScore).sum / sessions.length
    let averageCadence := (sessions.map fun s => s.cadence).sum / sessions.length
    { totalSessions := sessions.length,
      averageSymmetry := jsRound averageSymmetry,
      averageCadence := jsRound averageCadence,
      normalGaitPercentage := jsRound ((normalSessions : ℚ) / sessions.length * 100),
      weeklyTrend := gaitWeeklyTrendOf now sessions }

/-- The posture records `generateReport` (`src/convex/reports.ts`) actually
analyses: drop records with `forwardHeadAngle > 30`, then `slice(-10)` —
the at most 10 most recent of the remaining records. -/
def reportRecentPostureSessions (sessions : List PostureRecord) : List PostureRecord :=
  let validSessions := sessions.filter fun s => decide (s.forwardHeadAngle ≤ 30)
  validSessions.drop (validSessions.length - 10)

end BiomechAI

namespace BiomechAI

lemma thresholdRule_poor (p q : Prop) [Decidable p] [Decidable q] :
    thresholdRule p q .poor = .poor := by
  unfold thresholdRule
  split_ifs with h1 h2 h3
  · rfl
  · exact absurd h3 (by decide)
  · rfl
  · rfl

lemma thresholdRule_severity (p q : Prop) [Decidable p] [Decidable q] (c : PostureClass) :
    severity c ≤ severity (thresholdRule p q c) := by
  unfold thresholdRule
  split_ifs with h1 h2 h3 <;> cases c <;> simp_all [severity]

lemma postureRules_poor (a : PostureArgs) :
    ∀ r ∈ postureRules a, r PostureClass.poor = PostureClass.poor := by
  intro r hr
  simp only [postureRules, List.mem_cons, List.not_mem_nil, or_false] at hr
  rcases hr with h | h | h | h | h | h
  all_goals subst h
  · exact thresholdRule_poor _ _
  · exact thresholdRule_poor _ _
  · exact thresholdRule_poor _ _
  · exact thresholdRule_poor _ _
  · exact thresholdRule_poor _ _
  · unfold postureScoreRule
    cases a.postureScore with
    | some ps => exact thresholdRule_poor _ _
    | none => rfl

lemma postureRules_severity (a : PostureArgs) :
    ∀ r ∈ postureRules a, ∀ c, severity c ≤ severity (r c) := by
  intro r hr c
  simp only [postureRules, List.mem_cons, List.not_mem_nil, or_false] at hr
  rcases hr with h | h | h | h | h | h
  all_goals subst h
  · exact thresholdRule_severity _ _ _
  · exact thresholdRule_severity _ _ _
  · exact thresholdRule_severity _ _ _
  · exact thresholdRule_severity _ _ _
  · exact thresholdRule_severity _ _ _
  · unfold postureScoreRule
    cases a.postureScore with
    | some ps => exact thresholdRule_severity _ _ _
    | none => exact le_refl _

lemma foldl_rules_poor (rs : List (PostureClass → PostureClass))
    (h : ∀ r ∈ rs, r PostureClass.poor = PostureClass.poor) :
    rs.foldl (fun c r => r c) PostureClass.poor = PostureClass.poor := by
  induction rs with
  | nil => rfl
  | cons r rest ih =>
    rw [List.foldl_cons, h r (List.mem_cons_self r rest)]
    exact ih fun r' hr' => h r' (List.mem_cons_of_mem r hr')

lemma foldl_rules_severity (rs : List (PostureClass → PostureClass))
    (h : ∀ r ∈ rs, ∀ c, severity c ≤ severity (r c)) (c : PostureClass) :
    severity c ≤ severity (rs.foldl (fun c r => r c) c) := by
  induction rs generalizing c with
  | nil => exact le_refl _
  | cons r rest ih =>
    rw [List.foldl_cons]
    exact le_trans (h r (List.mem_cons_self r rest) c)
      (ih (fun r' hr' => h r' (List.mem_cons_of_mem r hr')) (r c))

/-- Claim C1: the classification of `analyzePosture` is produced by the ordered
rule cascade starting at `good`; severity never decreases along the cascade,
and once any rule has set `poor`, running the remaining rules (the cascade
from any position `i` onward) still yields `poor`. -/
theorem posture_cascade_monotone (a : PostureArgs) (i : ℕ) (c : PostureClass) :
    analyzePostureClassification a = (postureRules a).foldl (fun c r => r c) PostureClass.good ∧
    ((postureRules a).drop i).foldl (fun c r => r c) PostureClass.poor = PostureClass.poor ∧
    severity c ≤ severity (((postureRules a).drop i).foldl (fun c r => r c) c) := by
  refine ⟨rfl, ?_, ?_⟩
  · exact foldl_rules_poor _ fun r hr => postureRules_poor a r (List.mem_of_mem_drop hr)
  · exact foldl_rules_severity _ (fun r hr => postureRules_severity a r (List.mem_of_mem_drop hr)) c

/-- Claim C2: a gait sample with `symmetryScore < 70` is classified
`asymmetric`, whatever the other fields are; in particular the balance rule
keeps an `asymmetric` label. -/
theorem analyzeGait_asymmetric (a : GaitArgs) (h : a.symmetryScore < 70) :
    (analyzeGait a).classification = GaitClass.asymmetric := by
  simp only [analyzeGait]
  split_ifs <;> simp_all

/-- A gait sample whose symmetry score is far below 70. -/
def lowSymmetryGaitArgs : GaitArgs :=
  { stepCount := 200, symmetryScore := 40, cadence := 120, strideLength := none,
    gaitSpeed := none, leftRightBalance := 80, analysisType := "esp32",
    stancePhase := none, swingPhase := none, doubleSupportPhase := none,
    heelStrikeForce := none, toeOffForce := none }

/-- Witness for C2 at a concrete sample. -/
theorem analyzeGait_asymmetric_witness :
    (analyzeGait lowSymmetryGaitArgs).classification = GaitClass.asymmetric :=
  analyzeGait_asymmetric lowSymmetryGaitArgs (by norm_num [lowSymmetryGaitArgs])

/-- Claim C9: the gait sample with `symmetryScore 92`, `cadence 130`,
`leftRightBalance 50` and `analysisType "motion"` (no optional fields) is
classified `normal` with the single recommendation
`"Normal gait pattern detected!"`, for every step count. -/
theorem analyzeGait_normal_sample (sc : ℚ) :
    analyzeGait
        { stepCount := sc, symmetryScore := 92, cadence := 130, strideLength := none,
          gaitSpeed := none, leftRightBalance := 50, analysisType := "motion",
          stancePhase := none, swingPhase := none, doubleSupportPhase := none,
          heelStrikeForce := none, toeOffForce := none } =
      { classification := GaitClass.normal,
        recommendations := ["Normal gait pattern detected!"], score := 92 } := by
  simp only [analyzeGait]
  norm_num

/-- The concrete counterexample input to claim C8: every metric is perfect,
but the optional posture score is supplied as `0`. -/
def zeroScorePostureArgs : PostureArgs :=
  { forwardHeadAngle := 0, shoulderTilt := 0, neckAngle := 0, spineAlignment := 100,
    duration := 60, sittingPosition := none, handFolding := false, kneeling := false,
    spineAngle := none, earToHipAngle := none, postureScore := some 0,
    keypointConfidence := none }

/-- Counterexample to claim C8 as stated: this sample supplies a posture
score of `0 < 60`, yet `analyzePosture` classifies it `good`, not `poor` —
the source guards the rule with JavaScript truthiness
(`args.postureScore && args.postureScore < 60`) and `0` is falsy. -/
theorem postureScore_zero_not_poor :
    zeroScorePostureArgs.postureScore = some 0 ∧ (0 : ℚ) < 60 ∧
      analyzePostureClassification zeroScorePostureArgs = PostureClass.good ∧
      PostureClass.good ≠ PostureClass.poor := by
  refine ⟨rfl, by norm_num, ?_, by decide⟩
  rfl

/-- Claim C8 as amended: for a posture sample supplying a nonzero overall
posture score, a score `< 60` forces classification `poor`, and a score in
`[60, 80)` forces `fair` whenever the cascade before the score rule has not
already reached `poor`. -/
theorem postureScore_rule_effect (a : PostureArgs) (ps : ℚ)
    (hps : a.postureScore = some ps) (hnz : ps ≠ 0) :
    (ps < 60 → analyzePostureClassification a = PostureClass.poor) ∧
    (60 ≤ ps → ps < 80 → preScoreClassification a ≠ PostureClass.poor →
      analyzePostureClassification a = PostureClass.fair) := by
  have hdef : analyzePostureClassification a = postureScoreRule a (preScoreClassification a) := rfl
  have hrule : postureScoreRule a (preScoreClassification a) =
      thresholdRule (jsTruthy ps ∧ ps < 60) (jsTruthy ps ∧ ps < 80)
        (preScoreClassification a) := by
    simp only [postureScoreRule, hps]
  rw [hdef, hrule]
  constructor
  · intro hlt
    unfold thresholdRule
    rw [if_pos (show jsTruthy ps ∧ ps < 60 from ⟨hnz, hlt⟩)]
  · intro hge hlt hnotpoor
    unfold thresholdRule
    rw [if_neg (show ¬(jsTruthy ps ∧ ps < 60) from fun hc => absurd hc.2 (not_lt.mpr hge)),
      if_pos (show jsTruthy ps ∧ ps < 80 from ⟨hnz, hlt⟩)]
    cases hpre : preScoreClassification a with
    | good => rw [if_pos rfl]
    | fair => rw [if_neg (by decide)]
    | poor => exact absurd hpre hnotpoor

/-- A posture sample with a nonzero posture score below 60 and otherwise
perfect metrics. -/
def lowScorePostureArgs : PostureArgs :=
  { forwardHeadAngle := 0, shoulderTilt := 0, neckAngle := 0, spineAlignment := 100,
    duration := 60, sittingPosition := none, handFolding := false, kneeling := false,
    spineAngle := none, earToHipAngle := none, postureScore := some 50,
    keypointConfidence := none }

/-- Witness for the amended C8 at a concrete sample. -/
theorem postureScore_rule_effect_witness :
    analyzePostureClassification lowScorePostureArgs = PostureClass.poor :=
  (postureScore_rule_effect lowScorePostureArgs 50 rfl (by norm_num)).1 (by norm_num)

/-- Claim C7: on an empty record list both aggregators return the all-zero
statistics object with an empty weekly trend (and, being total functions of
their input, never throw); the fields the source leaves undefined on this
branch (`averageForwardHead`, `improvementRate`) are `none`. -/
theorem stats_empty_input (now : ℚ) :
    getPostureStats now [] =
      { totalSessions := 0, averageScore := 0, goodPosturePercentage := 0,
        averageForwardHead := none, improvementRate := none, weeklyTrend := [],
        advancedStats :=
          { sittingPositionStats := [], handFoldingPercentage := 0,
            kneelingPercentage := 0, averagePostureScore := 0,
            averageKeypointConfidence := 0 } } ∧
    getGaitStats now [] =
      { totalSessions := 0, averageSymmetry := 0, averageCadence := 0,
        normalGaitPercentage := 0, weeklyTrend := [] } :=
  ⟨rfl, rfl⟩

/-- Claim C10: on a non-empty record set, `averageScore` and
`goodPosturePercentage` of `getPostureStats` coincide: both are the rounded
good-classification percentage, and `averageScore` is not a mean of any
per-record score. -/
theorem averageScore_is_good_percentage (now : ℚ) (sessions : List PostureRecord)
    (h : sessions ≠ []) :
    (getPostureStats now sessions).averageScore =
      (getPostureStats now sessions).goodPosturePercentage ∧
    (getPostureStats now sessions).averageScore =
      jsRound ((goodCount sessions : ℚ) / sessions.length * 100) := by
  have hlen : ¬sessions.length = 0 := fun hc => h (List.length_eq_zero.mp hc)
  unfold getPostureStats
  rw [if_neg hlen]
  exact ⟨rfl, rfl⟩

/-- A concrete stored posture record classified `good`. -/
def goodPostureRecord : PostureRecord :=
  { timestamp := 0, forwardHeadAngle := 5, shoulderTilt := 0, neckAngle := 0,
    spineAlignment := 95, classification := .good, duration := 60,
    sittingPosition := none, handFolding := false, kneeling := false,
    postureScore := none, keypointConfidence := none }

/-- A concrete stored posture record classified `poor`, with an implausible
forward-head angle (above 30). -/
def poorPostureRecord : PostureRecord :=
  { timestamp := 0, forwardHeadAngle := 40, shoulderTilt := 0, neckAngle := 0,
    spineAlignment := 95, classification := .poor, duration := 60,
    sittingPosition := none, handFolding := false, kneeling := false,
    postureScore := none, keypointConfidence := none }

/-- Witness for C10 at a concrete record set. -/
theorem averageScore_is_good_percentage_witness :
    (getPostureStats 0 [goodPostureRecord]).averageScore =
      (getPostureStats 0 [goodPostureRecord]).goodPosturePercentage :=
  (averageScore_is_good_percentage 0 [goodPostureRecord] (List.cons_ne_nil _ _)).1

/-- Claim C6: the report composer (`generateReport`) works only on records
with forward-head angle at most 30 and keeps at most the 10 most recent of
them (a suffix of the filtered list), while the dashboard aggregator
`getPostureStats` counts every stored record, with no forward-head filter. -/
theorem report_filter_vs_dashboard (now : ℚ) (sessions : List PostureRecord) :
    (∀ s ∈ reportRecentPostureSessions sessions, s.forwardHeadAngle ≤ 30) ∧
    (reportRecentPostureSessions sessions).length ≤ 10 ∧
    reportRecentPostureSessions sessions <:+
      (sessions.filter fun s => decide (s.forwardHeadAngle ≤ 30)) ∧
    (getPostureStats now sessions).totalSessions = sessions.length := by
  refine ⟨?_, ?_, ?_, ?_⟩
  · intro s hs
    simp only [reportRecentPostureSessions] at hs
    have hmem := List.mem_of_mem_drop hs
    have := (List.mem_filter.mp hmem).2
    exact of_decide_eq_true this
  · simp only [reportRecentPostureSessions, List.length_drop]
    omega
  · simp only [reportRecentPostureSessions]
    exact List.drop_suffix _ _
  · by_cases h0 : sessions.length = 0
    · unfold getPostureStats
      rw [if_pos h0]
      exact h0.symm
    · unfold getPostureStats
      rw [if_neg h0]

/-- Witness for C6 at a concrete record set containing an out-of-range
record. -/
theorem report_filter_vs_dashboard_witness :
    (getPostureStats 0 [goodPostureRecord, poorPostureRecord]).totalSessions =
      ([goodPostureRecord, poorPostureRecord] : List PostureRecord).length :=
  (report_filter_vs_dashboard 0 [goodPostureRecord, poorPostureRecord]).2.2.2

lemma getPostureStats_improvementRate (now : ℚ) (sessions : List PostureRecord)
    (h : sessions ≠ []) :
    (getPostureStats now sessions).improvementRate = improvementRateOf sessions := by
  have hlen : ¬sessions.length = 0 := fun hc => h (List.length_eq_zero.mp hc)
  unfold getPostureStats
  rw [if_neg hlen]

/-- Claim C3: with both halves (split at `floor(n / 2)`) non-empty, the
improvement rate of `getPostureStats` is the rounded
`(secondHalfPct - firstHalfPct) / firstHalfPct * 100`; when `firstHalfPct`
is `0` the unguarded division leaves the result undefined (`none`, the model
of the source's non-finite number). -/
theorem improvementRate_formula (now : ℚ) (sessions : List PostureRecord)
    (h1 : 0 < (sessions.take (sessions.length / 2)).length)
    (h2 : 0 < (sessions.drop (sessions.length / 2)).length) :
    (goodPercentage (sessions.take (sessions.length / 2)) ≠ 0 →
      (getPostureStats now sessions).improvementRate =
        some (jsRound ((goodPercentage (sessions.drop (sessions.length / 2)) -
            goodPercentage (sessions.take (sessions.length / 2))) /
          goodPercentage (sessions.take (sessions.length / 2)) * 100))) ∧
    (goodPercentage (sessions.take (sessions.length / 2)) = 0 →
      (getPostureStats now sessions).improvementRate = none) := by
  have hne : sessions ≠ [] := by
    intro he
    rw [he] at h1
    simp at h1
  rw [getPostureStats_improvementRate now sessions hne]
  simp only [improvementRateOf]
  rw [if_pos (⟨h1, h2⟩ : _ ∧ _), if_pos h1, if_pos h2]
  constructor
  · intro hG
    rw [if_neg hG]
  · intro hG
    rw [if_pos hG]

lemma getPostureStats_weeklyTrend (now : ℚ) (sessions : List PostureRecord)
    (h : sessions ≠ []) :
    (getPostureStats now sessions).weeklyTrend = postureWeeklyTrendOf now sessions := by
  have hlen : ¬sessions.length = 0 := fun hc => h (List.length_eq_zero.mp hc)
  unfold getPostureStats
  rw [if_neg hlen]

lemma getGaitStats_weeklyTrend (now : ℚ) (sessions : List GaitRecord)
    (h : sessions ≠ []) :
    (getGaitStats now sessions).weeklyTrend = gaitWeeklyTrendOf now sessions := by
  have hlen : ¬sessions.length = 0 := fun hc => h (List.length_eq_zero.mp hc)
  unfold getGaitStats
  rw [if_neg hlen]

lemma getD_map_range {α : Type} (n k : ℕ) (hk : k < n) (f : ℕ → α) (d : α) :
    ((List.range n).map f).getD k d = f k := by
  rw [List.getD_eq_getElem?_getD, List.getElem?_map, List.getElem?_range hk]
  rfl

lemma sum_map_add {α : Type} (l : List α) (f g : α → ℕ) :
    (l.map fun x => f x + g x).sum = (l.map f).sum + (l.map g).sum := by
  induction l with
  | nil => rfl
  | cons x xs ih =>
    simp only [List.map_cons, List.sum_cons, ih]
    omega

/-- The condition for a timestamp `t` to pass both the trailing-week filter
and the window of the day `d` days before now. -/
abbrev bucketCond (now t d : ℚ) : Prop :=
  (now - d * msPerDay ≤ t ∧ t < now - d * msPerDay + msPerDay) ∧ now - 7 * msPerDay < t

/-- For one timestamp, membership across the 7 day buckets (each intersected
with the trailing-week filter) is equivalent to membership in
`[now - 6 days, now + 1 day)`: the buckets tile exactly that interval and
already lie inside the trailing week. -/
lemma day_counts_pointwise (now t : ℚ) :
    (trailingDays.map fun i =>
        if (inDayBucket now i t && decide (now - 7 * msPerDay < t)) = true
        then 1 else 0).sum =
      (if (decide (now - 6 * msPerDay ≤ t) && decide (t < now + msPerDay)) = true
        then 1 else 0 : ℕ) := by
  have hD : (0 : ℚ) < msPerDay := by norm_num [msPerDay]
  simp only [trailingDays, List.map_cons, List.map_nil, List.sum_cons, List.sum_nil,
    inDayBucket, Bool.and_eq_true, decide_eq_true_eq]
  push_cast
  rcases lt_or_le t (now - 6 * msPerDay) with hA | h6
  · rw [if_neg (show ¬bucketCond now t 6 by rintro ⟨⟨hl, -⟩, -⟩; linarith),
      if_neg (show ¬bucketCond now t 5 by rintro ⟨⟨hl, -⟩, -⟩; linarith),
      if_neg (show ¬bucketCond now t 4 by rintro ⟨⟨hl, -⟩, -⟩; linarith),
      if_neg (show ¬bucketCond now t 3 by rintro ⟨⟨hl, -⟩, -⟩; linarith),
      if_neg (show ¬bucketCond now t 2 by rintro ⟨⟨hl, -⟩, -⟩; linarith),
      if_neg (show ¬bucketCond now t 1 by rintro ⟨⟨hl, -⟩, -⟩; linarith),
      if_neg (show ¬bucketCond now t 0 by rintro ⟨⟨hl, -⟩, -⟩; linarith),
      if_neg (show ¬(now - 6 * msPerDay ≤ t ∧ t < now + msPerDay) by
        rintro ⟨hl, -⟩; linarith)]
    norm_num
  rcases lt_or_le t (now - 5 * msPerDay) with h5 | h5
  · rw [if_pos (show bucketCond now t 6 from ⟨⟨by linarith, by linarith⟩, by linarith⟩),
      if_neg (show ¬bucketCond now t 5 by rintro ⟨⟨hl, -⟩, -⟩; linarith),
      if_neg (show ¬bucketCond now t 4 by rintro ⟨⟨hl, -⟩, -⟩; linarith),
      if_neg (show ¬bucketCond now t 3 by rintro ⟨⟨hl, -⟩, -⟩; linarith),
      if_neg (show ¬bucketCond now t 2 by rintro ⟨⟨hl, -⟩, -⟩; linarith),
      if_neg (show ¬bucketCond now t 1 by rintro ⟨⟨hl, -⟩, -⟩; linarith),
      if_neg (show ¬bucketCond now t 0 by rintro ⟨⟨hl, -⟩, -⟩; linarith),
      if_pos (show now - 6 * msPerDay ≤ t ∧ t < now + msPerDay from
        ⟨by linarith, by linarith⟩)]
    norm_num
  rcases lt_or_le t (now - 4 * msPerDay) with h4 | h4
  · rw [if_neg (show ¬bucketCond now t 6 by rintro ⟨⟨-, hu⟩, -⟩; linarith),
      if_pos (show bucketCond now t 5 from ⟨⟨by linarith, by linarith⟩, by linarith⟩),
      if_neg (show ¬bucketCond now t 4 by rintro ⟨⟨hl, -⟩, -⟩; linarith),
      if_neg (show ¬bucketCond now t 3 by rintro ⟨⟨hl, -⟩, -⟩; linarith),
      if_neg (show ¬bucketCond now t 2 by rintro ⟨⟨hl, -⟩, -⟩; linarith),
      if_neg (show ¬bucketCond now t 1 by rintro ⟨⟨hl, -⟩, -⟩; linarith),
      if_neg (show ¬bucketCond now t 0 by rintro ⟨⟨hl, -⟩, -⟩; linarith),
      if_pos (show now - 6 * msPerDay ≤ t ∧ t < now + msPerDay from
        ⟨by linarith, by linarith⟩)]
    norm_num
  rcases lt_or_le t (now - 3 * msPerDay) with h3 | h3
  · rw [if_neg (show ¬bucketCond now t 6 by rintro ⟨⟨-, hu⟩, -⟩; linarith),
      if_neg (show ¬bucketCond now t 5 by rintro ⟨⟨-, hu⟩, -⟩; linarith),
      if_pos (show bucketCond now t 4 from ⟨⟨by linarith, by linarith⟩, by linarith⟩),
      if_neg (show ¬bucketCond now t 3 by rintro ⟨⟨hl, -⟩, -⟩; linarith),
      if_neg (show ¬bucketCond now t 2 by rintro ⟨⟨hl, -⟩, -⟩; linarith),
      if_neg (show ¬bucketCond now t 1 by rintro ⟨⟨hl, -⟩, -⟩; linarith),
      if_neg (show ¬bucketCond now t 0 by rintro ⟨⟨hl, -⟩, -⟩; linarith),
      if_pos (show now - 6 * msPerDay ≤ t ∧ t < now + msPerDay from
        ⟨by linarith, by linarith⟩)]
    norm_num
  rcases lt_or_le t (now - 2 * msPerDay) with h2 | h2
  · rw [if_neg (show ¬bucketCond now t 6 by rintro ⟨⟨-, hu⟩, -⟩; linarith),
      if_neg (show ¬bucketCond now t 5 by rintro ⟨⟨-, hu⟩, -⟩; linarith),
      if_neg (show ¬bucketCond now t 4 by rintro ⟨⟨-, hu⟩, -⟩; linarith),
      if_pos (show bucketCond now t 3 from ⟨⟨by linarith, by linarith⟩, by linarith⟩),
      if_neg (show ¬bucketCond now t 2 by rintro ⟨⟨hl, -⟩, -⟩; linarith),
      if_neg (show ¬bucketCond now t 1 by rintro ⟨⟨hl, -⟩, -⟩; linarith),
      if_neg (show ¬bucketCond now t 0 by rintro ⟨⟨hl, -⟩, -⟩; linarith),
      if_pos (show now - 6 * msPerDay ≤ t ∧ t < now + msPerDay from
        ⟨by linarith, by linarith⟩)]
    norm_num
  rcases lt_or_le t (now - 1 * msPerDay) with h1 | h1
  · rw [if_neg (show ¬bucketCond now t 6 by rintro ⟨⟨-, hu⟩, -⟩; linarith),
      if_neg (show ¬bucketCond now t 5 by rintro ⟨⟨-, hu⟩, -⟩; linarith),
      if_neg (show ¬bucketCond now t 4 by rintro ⟨⟨-, hu⟩, -⟩; linarith),
      if_neg (show ¬bucketCond now t 3 by rintro ⟨⟨-, hu⟩, -⟩; linarith),
      if_pos (show bucketCond now t 2 from ⟨⟨by linarith, by linarith⟩, by linarith⟩),
      if_neg (show ¬bucketCond now t 1 by rintro ⟨⟨hl, -⟩, -⟩; linarith),
      if_neg (show ¬bucketCond now t 0 by rintro ⟨⟨hl, -⟩, -⟩; linarith),
      if_pos (show now - 6 * msPerDay ≤ t ∧ t < now + msPerDay from
        ⟨by linarith, by linarith⟩)]
    norm_num
  rcases lt_or_le t now with h0 | h0
  · rw [if_neg (show ¬bucketCond now t 6 by rintro ⟨⟨-, hu⟩, -⟩; linarith),
      if_neg (show ¬bucketCond now t 5 by rintro ⟨⟨-, hu⟩, -⟩; linarith),
      if_neg (show ¬bucketCond now t 4 by rintro ⟨⟨-, hu⟩, -⟩; linarith),
      if_neg (show ¬bucketCond now t 3 by rintro ⟨⟨-, hu⟩, -⟩; linarith),
      if_neg (show ¬bucketCond now t 2 by rintro ⟨⟨-, hu⟩, -⟩; linarith),
      if_pos (show bucketCond now t 1 from ⟨⟨by linarith, by linarith⟩, by linarith⟩),
      if_neg (show ¬bucketCond now t 0 by rintro ⟨⟨hl, -⟩, -⟩; linarith),
      if_pos (show now - 6 * msPerDay ≤ t ∧ t < now + msPerDay from
        ⟨by linarith, by linarith⟩)]
    norm_num
  rcases lt_or_le t (now + msPerDay) with hup | hup
  · rw [if_neg (show ¬bucketCond now t 6 by rintro ⟨⟨-, hu⟩, -⟩; linarith),
      if_neg (show ¬bucketCond now t 5 by rintro ⟨⟨-, hu⟩, -⟩; linarith),
      if_neg (show ¬bucketCond now t 4 by rintro ⟨⟨-, hu⟩, -⟩; linarith),
      if_neg (show ¬bucketCond now t 3 by rintro ⟨⟨-, hu⟩, -⟩; linarith),
      if_neg (show ¬bucketCond now t 2 by rintro ⟨⟨-, hu⟩, -⟩; linarith),
      if_neg (show ¬bucketCond now t 1 by rintro ⟨⟨-, hu⟩, -⟩; linarith),
      if_pos (show bucketCond now t 0 from ⟨⟨by linarith, by linarith⟩, by linarith⟩),
      if_pos (show now - 6 * msPerDay ≤ t ∧ t < now + msPerDay from
        ⟨by linarith, by linarith⟩)]
    norm_num
  · rw [if_neg (show ¬bucketCond now t 6 by rintro ⟨⟨-, hu⟩, -⟩; linarith),
      if_neg (show ¬bucketCond now t 5 by rintro ⟨⟨-, hu⟩, -⟩; linarith),
      if_neg (show ¬bucketCond now t 4 by rintro ⟨⟨-, hu⟩, -⟩; linarith),
      if_neg (show ¬bucketCond now t 3 by rintro ⟨⟨-, hu⟩, -⟩; linarith),
      if_neg (show ¬bucketCond now t 2 by rintro ⟨⟨-, hu⟩, -⟩; linarith),
      if_neg (show ¬bucketCond now t 1 by rintro ⟨⟨-, hu⟩, -⟩; linarith),
      if_neg (show ¬bucketCond now t 0 by rintro ⟨⟨-, hu⟩, -⟩; linarith),
      if_neg (show ¬(now - 6 * msPerDay ≤ t ∧ t < now + msPerDay) by
        rintro ⟨-, hu⟩; linarith)]
    norm_num

lemma day_counts_sum {α : Type} (ts : α → ℚ) (now : ℚ) (l : List α) :
    (trailingDays.map fun i =>
        (l.filter fun s =>
          inDayBucket now i (ts s) && decide (now - 7 * msPerDay < ts s)).length).sum =
      (l.filter fun s =>
        decide (now - 6 * msPerDay ≤ ts s) && decide (ts s < now + msPerDay)).length := by
  induction l with
  | nil => simp
  | cons x xs ih =>
    simp only [← List.countP_eq_length_filter] at ih ⊢
    simp only [List.countP_cons]
    rw [sum_map_add, ih, day_counts_pointwise now (ts x)]

lemma postureDaySessions_eq (now : ℚ) (l : List PostureRecord) (i : ℕ) :
    postureDaySessions now l i =
      l.filter fun s =>
        inDayBucket now i s.timestamp && decide (now - 7 * msPerDay < s.timestamp) :=
  List.filter_filter _ _

lemma gaitDaySessions_eq (now : ℚ) (l : List GaitRecord) (i : ℕ) :
    gaitDaySessions now l i =
      l.filter fun s =>
        inDayBucket now i s.timestamp && decide (now - 7 * msPerDay < s.timestamp) :=
  List.filter_filter _ _

lemma posture_day_counts (now : ℚ) (l : List PostureRecord) :
    (trailingDays.map fun i => (postureDaySessions now l i).length).sum =
      (l.filter fun s =>
        decide (now - 6 * msPerDay ≤ s.timestamp) &&
          decide (s.timestamp < now + msPerDay)).length := by
  have h := day_counts_sum (fun s : PostureRecord => s.timestamp) now l
  simpa [postureDaySessions_eq] using h

lemma gait_day_counts (now : ℚ) (l : List GaitRecord) :
    (trailingDays.map fun i => (gaitDaySessions now l i).length).sum =
      (l.filter fun s =>
        decide (now - 6 * msPerDay ≤ s.timestamp) &&
          decide (s.timestamp < now + msPerDay)).length := by
  have h := day_counts_sum (fun s : GaitRecord => s.timestamp) now l
  simpa [gaitDaySessions_eq] using h

/-- A concrete stored gait record classified `normal`, recorded at `now = 0`. -/
def normalGaitRecord : GaitRecord :=
  { timestamp := 0, stepCount := 100, symmetryScore := 92, cadence := 130,
    strideLength := none, gaitSpeed := none, leftRightBalance := 50,
    classification := .normal, analysisType := "motion" }

/-- A posture record 6.5 days old: inside the trailing-week filter but older
than the earliest day bucket. -/
def weekOldPostureRecord : PostureRecord :=
  { timestamp := -561600000, forwardHeadAngle := 5, shoulderTilt := 0, neckAngle := 0,
    spineAlignment := 95, classification := .good, duration := 60,
    sittingPosition := none, handFolding := false, kneeling := false,
    postureScore := none, keypointConfidence := none }

/-- Counterexample to claim C4 as stated: with one record 6.5 days old, the
trend has 7 entries and the record lies within the last 7 days, yet the
per-day counts across the 7 entries sum to 0, not 1 — the buckets only cover
`[now - 6 days, now + 1 day)`. -/
theorem weeklyTrend_count_gap :
    (getPostureStats 0 [weekOldPostureRecord]).weeklyTrend.length = 7 ∧
    (([weekOldPostureRecord] : List PostureRecord).filter fun s =>
        decide (0 - 7 * msPerDay < s.timestamp)).length = 1 ∧
    (trailingDays.map fun i =>
        (postureDaySessions 0 [weekOldPostureRecord] i).length).sum = 0 := by
  refine ⟨?_, ?_, ?_⟩
  · rw [getPostureStats_weeklyTrend 0 _ (List.cons_ne_nil _ _)]
    simp [postureWeeklyTrendOf, trailingDays]
  · norm_num [msPerDay, weekOldPostureRecord, List.filter_cons, List.filter_nil]
  · norm_num [trailingDays, postureDaySessions, inDayBucket, msPerDay, weekOldPostureRecord,
      List.filter_cons, List.filter_nil, Bool.and_eq_true, decide_eq_true_eq]

/-- Claim C4, amended: for non-empty record sets both weekly trends have
exactly 7 entries, and the per-day record counts across the 7 day buckets sum
to the number of records with timestamp in `[now - 6 days, now + 1 day)` —
not to the full trailing-week count, since records older than 6 days fall in
no bucket (on empty record sets the trend is the empty list instead). -/
theorem weeklyTrend_entries_and_counts (now : ℚ) (ps : List PostureRecord)
    (gs : List GaitRecord) (hp : ps ≠ []) (hg : gs ≠ []) :
    (getPostureStats now ps).weeklyTrend.length = 7 ∧
    (trailingDays.map fun i => (postureDaySessions now ps i).length).sum =
      (ps.filter fun s =>
        decide (now - 6 * msPerDay ≤ s.timestamp) &&
          decide (s.timestamp < now + msPerDay)).length ∧
    (getGaitStats now gs).weeklyTrend.length = 7 ∧
    (trailingDays.map fun i => (gaitDaySessions now gs i).length).sum =
      (gs.filter fun s =>
        decide (now - 6 * msPerDay ≤ s.timestamp) &&
          decide (s.timestamp < now + msPerDay)).length := by
  refine ⟨?_, posture_day_counts now ps, ?_, gait_day_counts now gs⟩
  · rw [getPostureStats_weeklyTrend now ps hp]
    simp [postureWeeklyTrendOf, trailingDays]
  · rw [getGaitStats_weeklyTrend now gs hg]
    simp [gaitWeeklyTrendOf, trailingDays]

/-- Witness for the amended C4 at concrete one-record sets. -/
theorem weeklyTrend_entries_and_counts_witness :
    (getPostureStats 0 [goodPostureRecord]).weeklyTrend.length = 7 :=
  (weeklyTrend_entries_and_counts 0 [goodPostureRecord] [normalGaitRecord]
    (List.cons_ne_nil _ _) (List.cons_ne_nil _ _)).1

/-- Counterexample to claim C5 as stated: one gait record with symmetry 92,
classified `normal`, recorded at `now`.  The day's good-classification
percentage is 100, but the trend entry carries 92 — `getGaitStats` fills the
trend with the rounded mean symmetry score, not a classification
percentage. -/
theorem gait_trend_not_percentage :
    ((getGaitStats 0 [normalGaitRecord]).weeklyTrend.getD 6
        { date := 0, symmetry := 0 }).symmetry = 92 ∧
    jsRound ((((gaitDaySessions 0 [normalGaitRecord] 0).filter fun s =>
          decide (s.classification = GaitClass.normal)).length : ℚ) /
        (gaitDaySessions 0 [normalGaitRecord] 0).length * 100) = 100 ∧
    (92 : ℤ) ≠ 100 := by
  refine ⟨?_, ?_, by norm_num⟩
  · rw [getGaitStats_weeklyTrend 0 _ (List.cons_ne_nil _ _)]
    unfold gaitWeeklyTrendOf trailingDays
    norm_num [gaitDaySymmetry, gaitDaySessions, inDayBucket, msPerDay, normalGaitRecord,
      List.filter_cons, List.filter_nil, Bool.and_eq_true, decide_eq_true_eq, jsRound]
  · norm_num [gaitDaySessions, inDayBucket, msPerDay, normalGaitRecord,
      List.filter_cons, List.filter_nil, Bool.and_eq_true, decide_eq_true_eq, jsRound,
      show decide (GaitClass.normal = GaitClass.normal) = true from rfl]

/-- Claim C5, amended: for non-empty record sets and `k < 7`, the `k`-th
trend entry is the day `6 - k` days before now; the posture entry's score is
the rounded good-classification percentage of that day's records (0 if none),
while the gait entry's value is the rounded mean `symmetryScore` of that
day's records (0 if none), not a classification percentage. -/
theorem weeklyTrend_day_values (now : ℚ) (ps : List PostureRecord)
    (gs : List GaitRecord) (hp : ps ≠ []) (hg : gs ≠ []) (k : ℕ) (hk : k < 7) :
    (getPostureStats now ps).weeklyTrend.getD k { date := 0, score := 0 } =
      { date := now - ((6 - k : ℕ) : ℚ) * msPerDay,
        score := jsRound (postureDayScore (postureDaySessions now ps (6 - k))) } ∧
    (getGaitStats now gs).weeklyTrend.getD k { date := 0, symmetry := 0 } =
      { date := now - ((6 - k : ℕ) : ℚ) * msPerDay,
        symmetry := jsRound (gaitDaySymmetry (gaitDaySessions now gs (6 - k))) } := by
  rw [getPostureStats_weeklyTrend now ps hp, getGaitStats_weeklyTrend now gs hg]
  unfold postureWeeklyTrendOf gaitWeeklyTrendOf trailingDays
  interval_cases k <;> exact ⟨rfl, rfl⟩

/-- Witness for the amended C5 at concrete inputs (`k = 6`, the current-day
entry). -/
theorem weeklyTrend_day_values_witness :
    (getPostureStats 0 [goodPostureRecord]).weeklyTrend.getD 6 { date := 0, score := 0 } =
      { date := 0 - ((6 - 6 : ℕ) : ℚ) * msPerDay,
        score := jsRound (postureDayScore (postureDaySessions 0 [goodPostureRecord] (6 - 6))) } :=
  (weeklyTrend_day_values 0 [goodPostureRecord] [normalGaitRecord]
    (List.cons_ne_nil _ _) (List.cons_ne_nil _ _) 6 (by norm_num)).1

/-- Witness for C3: one `good` then one `poor` record give an improvement
rate of `-100`. -/
theorem improvementRate_formula_witness :
    (getPostureStats 0 [goodPostureRecord, poorPostureRecord]).improvementRate =
      some (-100) := by
  have h :=
    (improvementRate_formula 0 [goodPostureRecord, poorPostureRecord]
        (by norm_num) (by norm_num)).1
      (by norm_num [goodPercentage, goodCount, goodPostureRecord])
  rw [h]
  norm_num [goodPercentage, goodCount, goodPostureRecord, poorPostureRecord, jsRound,
    List.filter, show decide (PostureClass.poor = PostureClass.good) = false from rfl,
    show decide (PostureClass.good = PostureClass.good) = true from rfl]

end BiomechAI
